import Mathlib

/-!
Verification of the natural-language specification of the
`cis6930sp26-assignment1` ETL pipeline against its Python source
(`pipeline.py`, `servers/extract_server.py`, `servers/transform_server.py`,
`servers/load_server.py`).

The embedding models Python/JSON values with the inductive `PyVal`
(JSON numbers restricted to integers; the repository's own code paths
exercised by the claims only ever compare integral bounds, and numeric
strings are parsed into exact rationals where `float()` coercion matters).
Python dictionaries are association lists looked up on the first matching
key; `dict.get` returns `noneV` for a missing key, exactly as Python's
`None` default.
-/

namespace ETL

/-- Model of a Python/JSON value (numbers restricted to integers;
strings carry their exact character data). -/
inductive PyVal where
  | noneV : PyVal
  | boolV : Bool → PyVal
  | intV  : Int → PyVal
  | strV  : String → PyVal
  | listV : List PyVal → PyVal
  | dictV : List (String × PyVal) → PyVal
deriving Repr

/-- A record, i.e. a Python dict: association list, first binding wins. -/
abbrev Record := List (String × PyVal)

/-- Association-list lookup (Python dict indexing / `.get` with hit). -/
def alookup (kvs : Record) (k : String) : Option PyVal :=
  match kvs with
  | [] => none
  | (k0, v) :: rest => if k0 = k then some v else alookup rest k

/-- `r.get(k)`: Python `dict.get` returns `None` for a missing key. -/
def rgetPy (r : Record) (k : String) : PyVal :=
  (alookup r k).getD .noneV

/-- Lookup of a key inside a `dictV` value (used to inspect tool results). -/
def dlookup (v : PyVal) (k : String) : Option PyVal :=
  match v with
  | .dictV kvs => alookup kvs k
  | _ => none

/-- `r[k] = v`: Python dict assignment — an existing key keeps its
position and gets the new value, a fresh key is appended. -/
def rset (r : Record) (k : String) (v : PyVal) : Record :=
  match r with
  | [] => [(k, v)]
  | (k0, v0) :: rest =>
      if k0 = k then (k0, v) :: rest else (k0, v0) :: rset rest k v

/-- Python truthiness (`bool(x)`) on the modelled values. -/
def pyTruthy : PyVal → Bool
  | .noneV => false
  | .boolV b => b
  | .intV n => n != 0
  | .strV s => !(s = "")
  | .listV l => !l.isEmpty
  | .dictV kvs => !kvs.isEmpty

/-- `str(type(x))` for the modelled values (used in error messages). -/
def typeName : PyVal → String
  | .noneV => "<class 'NoneType'>"
  | .boolV _ => "<class 'bool'>"
  | .intV _ => "<class 'int'>"
  | .strV _ => "<class 'str'>"
  | .listV _ => "<class 'list'>"
  | .dictV _ => "<class 'dict'>"

/-- Python `str.lower()` (ASCII case mapping). -/
def pyLower (s : String) : String := String.mk (s.data.map Char.toLower)

/-- Python `str.upper()` (ASCII case mapping). -/
def pyUpper (s : String) : String := String.mk (s.data.map Char.toUpper)

/-- Numeric value of a decimal digit character. -/
def dval (c : Char) : Nat := c.toNat - 48

/-- Parse a non-empty all-digit character list into a natural number. -/
def digitsVal (cs : List Char) : Nat :=
  cs.foldl (fun acc c => acc * 10 + dval c) 0

/-- Python `int(s)` on a string: strip whitespace, optional sign, then a
non-empty digit run (ASCII model; underscore digit separators omitted). -/
def parseIntStr (s : String) : Option Int :=
  let cs := (s.data.dropWhile Char.isWhitespace).reverse.dropWhile Char.isWhitespace |>.reverse
  let core : List Char → Option Int := fun ds =>
    if ds ≠ [] ∧ ds.all Char.isDigit then some (digitsVal ds : Int) else none
  match cs with
  | '+' :: rest => core rest
  | '-' :: rest => (core rest).map Neg.neg
  | rest => core rest

/-- Python `int(x)` coercion on the modelled values: ints pass through,
bools become 0/1, strings are parsed as integer literals; `None`, lists
and dicts raise (modelled as `none`). -/
def pyInt : PyVal → Option Int
  | .intV n => some n
  | .boolV b => some (if b then 1 else 0)
  | .strV s => parseIntStr s
  | _ => none

/-- Unsigned decimal-literal part of Python `float(s)`: digits with an
optional single decimal point, at least one digit overall. -/
def parseUnsignedFloat (cs : List Char) : Option ℚ :=
  let intPart := cs.takeWhile Char.isDigit
  let rest := cs.dropWhile Char.isDigit
  match rest with
  | [] => if intPart.isEmpty then none else some (digitsVal intPart : ℚ)
  | '.' :: frac =>
      if frac.all Char.isDigit ∧ (intPart ≠ [] ∨ frac ≠ []) then
        some ((digitsVal intPart : ℚ) + (digitsVal frac : ℚ) / ((10 : ℚ) ^ frac.length))
      else none
  | _ => none

/-- Python `float(s)` on a string: strip whitespace, optional sign,
plain decimal literal (exponent/`inf`/`nan` forms outside the model). -/
def parseFloatStr (s : String) : Option ℚ :=
  let cs := (s.data.dropWhile Char.isWhitespace).reverse.dropWhile Char.isWhitespace |>.reverse
  match cs with
  | '+' :: rest => parseUnsignedFloat rest
  | '-' :: rest => (parseUnsignedFloat rest).map Neg.neg
  | rest => parseUnsignedFloat rest

/-- Python `float(x)` coercion: numbers pass through exactly, bools become
0/1, strings are parsed; `None`, lists and dicts raise (`none`). -/
def pyFloat : PyVal → Option ℚ
  | .intV n => some (n : ℚ)
  | .boolV b => some (if b then 1 else 0)
  | .strV s => parseFloatStr s
  | _ => none

end ETL

namespace ETL

/-! ### pipeline.py — planning (`sanitize_plan`, lines 168-186) -/

/-- `DEFAULT_LIMIT` (pipeline.py line 22). -/
def DEFAULT_LIMIT : Int := 500

/-- `DEFAULT_OFFSET` (pipeline.py line 23). -/
def DEFAULT_OFFSET : Int := 0

/-- `sanitize_plan(plan)` (pipeline.py lines 168-186): start from the
defaults; when the plan is a dict and a key is present, try `int()`
coercion falling back to the default for that field; finally clamp
`limit` into `[100, 2000]` and `offset` into `[0, ∞)`. -/
def sanitize_plan (plan : PyVal) : Int × Int :=
  let limit :=
    match plan with
    | .dictV kvs =>
        match alookup kvs "fetch_limit" with
        | some v => match pyInt v with
                    | some n => n
                    | none => DEFAULT_LIMIT
        | none => DEFAULT_LIMIT
    | _ => DEFAULT_LIMIT
  let offset :=
    match plan with
    | .dictV kvs =>
        match alookup kvs "fetch_offset" with
        | some v => match pyInt v with
                    | some n => n
                    | none => DEFAULT_OFFSET
        | none => DEFAULT_OFFSET
    | _ => DEFAULT_OFFSET
  (max 100 (min limit 2000), max 0 offset)

/-- The advisory plan's coercible `fetch_limit` suggestion, if any:
`none` when the plan is not a dict, the key is absent, or `int()` fails. -/
def limitSuggestion (plan : PyVal) : Option Int :=
  match plan with
  | .dictV kvs => (alookup kvs "fetch_limit").bind pyInt
  | _ => none

/-- The advisory plan's coercible `fetch_offset` suggestion, if any. -/
def offsetSuggestion (plan : PyVal) : Option Int :=
  match plan with
  | .dictV kvs => (alookup kvs "fetch_offset").bind pyInt
  | _ => none

/-! ### pipeline.py — `ensure_list` (lines 79-90)

`ensure_list` first runs `try_parse_json`, which is the identity on values
that are already structured (`dict`/`list`, pipeline.py lines 58-59); the
claims about it quantify over post-decode values, so the embedding takes
the decoded `PyVal` directly. -/

/-- `ensure_list(data, ctx)` on a decoded value (pipeline.py lines 85-90):
a list is accepted unless it is non-empty with a non-dict FIRST element
(`data and not isinstance(data[0], dict)`); a non-list raises. -/
def ensure_list (data : PyVal) (ctx : String) : Except String (List PyVal) :=
  match data with
  | .listV xs =>
      match xs with
      | [] => .ok []
      | x :: rest =>
          match x with
          | .dictV _ => .ok (x :: rest)
          | _ => .error (ctx ++ ": Expected list of objects (dicts), got list of " ++ typeName x)
  | v => .error (ctx ++ ": Expected JSON list, got " ++ typeName v)

/-! ### servers/extract_server.py — Source Adapter (lines 67-140) -/

/-- Outcome of a fetch tool call: either an error JSON string returned
before any network activity, or an HTTP GET issued with these query
parameters (`requests.get(SODA_URL, params=params)`). -/
inductive FetchResult where
  | errorJson (msg : String) : FetchResult
  | httpGet (params : List (String × String)) : FetchResult
deriving Repr

/-- Whether a fetch outcome is a pre-request validation error. -/
def FetchResult.isValidationError : FetchResult → Bool
  | .errorJson _ => true
  | .httpGet _ => false

/-- `fetch_incidents(limit, offset)` (extract_server.py lines 67-87):
bounds checks run before the request is built; each failure returns
`{"ok": false, "error": ...}` without touching the network. -/
def fetch_incidents (limit offset : Int) : FetchResult :=
  if limit ≤ 0 then .errorJson "limit must be > 0"
  else if limit > 2000 then .errorJson "limit too large (max 2000)"
  else if offset < 0 then .errorJson "offset must be >= 0"
  else .httpGet [("$limit", toString limit), ("$offset", toString offset)]

/-- `fetch_by_date_range(start_iso, end_iso, limit, offset)`
(extract_server.py lines 116-140): identical bounds checks, then a
request carrying the `$where` date filter. -/
def fetch_by_date_range (start_iso end_iso : String) (limit offset : Int) : FetchResult :=
  if limit ≤ 0 then .errorJson "limit must be > 0"
  else if limit > 2000 then .errorJson "limit too large (max 2000)"
  else if offset < 0 then .errorJson "offset must be >= 0"
  else .httpGet
    [("$where", "report_date between '" ++ start_iso ++ "' and '" ++ end_iso ++ "'"),
     ("$limit", toString limit), ("$offset", toString offset)]

/-! ### servers/transform_server.py — Normalizer / Categorizer / Anomaly Detector

`_parse_json_list` (lines 12-22) wraps any non-dict list element as
`{"_value": row}`; every tool of the server applies it to its decoded
input list. -/

/-- One row of `_parse_json_list`'s output (transform_server.py line 21,
identically load_server.py lines 31-35). -/
def wrapRow : PyVal → Record
  | .dictV kvs => kvs
  | v => [("_value", v)]

/-- Parsed `datetime` components produced by `strptime` (microseconds as
a scaled natural, exactly Python's `datetime.microsecond`). -/
structure DT where
  year : Nat
  month : Nat
  day : Nat
  hour : Nat
  minute : Nat
  second : Nat
  micro : Nat
deriving Repr

/-- Gregorian leap-year rule used by `datetime`. -/
def isLeap (y : Nat) : Bool := y % 4 == 0 && (y % 100 != 0 || y % 400 == 0)

/-- Days in a month, as validated by the `datetime` constructor. -/
def daysInMonth (y m : Nat) : Nat :=
  if m == 2 then (if isLeap y then 29 else 28)
  else if m == 4 || m == 6 || m == 9 || m == 11 then 30
  else 31

/-- `%Y` in CPython `strptime`: exactly four digits. -/
def parse4 : List Char → Option (Nat × List Char)
  | a :: b :: c :: d :: rest =>
      if a.isDigit && b.isDigit && c.isDigit && d.isDigit then
        some (dval a * 1000 + dval b * 100 + dval c * 10 + dval d, rest)
      else none
  | _ => none

/-- A one-or-two-digit `strptime` field (`%m`, `%d`, `%H`, `%M`, `%S`).
CPython compiles these to alternations that accept a two-digit value in
`[lo2, hi2]` and otherwise fall back to a single digit `≥ lo1`; in these
formats every field is followed by a non-digit literal (or the end), so
the greedy two-digit-first reading coincides with regex backtracking. -/
def parseField2 (lo2 hi2 lo1 : Nat) : List Char → Option (Nat × List Char)
  | a :: b :: rest =>
      if a.isDigit && b.isDigit then
        let v := dval a * 10 + dval b
        if lo2 ≤ v && v ≤ hi2 then some (v, rest)
        else if lo1 ≤ dval a then some (dval a, b :: rest)
        else none
      else if a.isDigit && lo1 ≤ dval a then some (dval a, b :: rest)
      else none
  | [a] => if a.isDigit && dval a ≥ lo1 then some (dval a, []) else none
  | [] => none

/-- A literal character of the format string. -/
def parseLit (c : Char) : List Char → Option (List Char)
  | x :: rest => if x == c then some rest else none
  | [] => none

/-- `%f`: one to six fractional-second digits, right-padded to
microseconds. -/
def parseFrac (cs : List Char) : Option (Nat × List Char) :=
  let ds := (cs.takeWhile Char.isDigit).take 6
  if ds.isEmpty then none
  else some (digitsVal ds * 10 ^ (6 - ds.length), cs.drop ds.length)

/-- The shared `"%Y-%m-%dT%H:%M:%S"` prefix of both accepted formats. -/
def parseStamp (cs : List Char) : Option (DT × List Char) := do
  let (y, cs) ← parse4 cs
  let cs ← parseLit '-' cs
  let (m, cs) ← parseField2 1 12 1 cs
  let cs ← parseLit '-' cs
  let (d, cs) ← parseField2 1 31 1 cs
  let cs ← parseLit 'T' cs
  let (hh, cs) ← parseField2 0 23 0 cs
  let cs ← parseLit ':' cs
  let (mi, cs) ← parseField2 0 59 0 cs
  let cs ← parseLit ':' cs
  let (ss, cs) ← parseField2 0 59 0 cs
  pure (⟨y, m, d, hh, mi, ss, 0⟩, cs)

/-- The `datetime(...)` constructor's range validation: `strptime`
raises `ValueError` (caught by `_iso_parse`) for year 0 or an
out-of-range day such as February 30. -/
def dtValid (dt : DT) : Bool :=
  1 ≤ dt.year && 1 ≤ dt.day && dt.day ≤ daysInMonth dt.year dt.month

/-- `datetime.strptime(s, "%Y-%m-%dT%H:%M:%S.%f")`: the whole string
must be consumed. -/
def strptimeFrac (s : String) : Option DT := do
  let (dt, cs) ← parseStamp s.data
  let cs ← parseLit '.' cs
  let (micro, cs) ← parseFrac cs
  if cs.isEmpty ∧ dtValid dt then pure { dt with micro := micro } else none

/-- `datetime.strptime(s, "%Y-%m-%dT%H:%M:%S")`. -/
def strptimePlain (s : String) : Option DT := do
  let (dt, cs) ← parseStamp s.data
  if cs.isEmpty ∧ dtValid dt then pure dt else none

/-- Zero-padded decimal rendering of width `w`. -/
def pad (w n : Nat) : String :=
  let s := toString n
  String.mk (List.replicate (w - s.length) '0') ++ s

/-- `datetime.isoformat()`: the fractional part is printed (six digits)
only when the microsecond field is non-zero. -/
def dtIso (dt : DT) : String :=
  pad 4 dt.year ++ "-" ++ pad 2 dt.month ++ "-" ++ pad 2 dt.day ++ "T" ++
  pad 2 dt.hour ++ ":" ++ pad 2 dt.minute ++ ":" ++ pad 2 dt.second ++
  (if dt.micro == 0 then "" else "." ++ pad 6 dt.micro)

/-- `_iso_parse(s)` (transform_server.py lines 25-37): `None` and
non-strings and blank strings give `None`; otherwise the two formats
`"%Y-%m-%dT%H:%M:%S.%f"` and `"%Y-%m-%dT%H:%M:%S"` are tried in order
and the first success is rendered with `isoformat()`; on total failure
the result is `None`. There is no date-only format in the list. -/
def isoParse (v : PyVal) : Option String :=
  match v with
  | .strV s =>
      if s.data.all Char.isWhitespace then none
      else
        match strptimeFrac s with
        | some dt => some (dtIso dt)
        | none =>
            match strptimePlain s with
            | some dt => some (dtIso dt)
            | none => none
  | _ => none

/-- Render an optional parse result as the stored field value
(`None` ↦ JSON null). -/
def optToPy : Option String → PyVal
  | some s => .strV s
  | none => .noneV

/-- `clean_dates(data)` (transform_server.py lines 40-51): for each row
set `report_date_parsed` from `report_date`, then `offense_date_parsed`
from `offense_date`, via `_iso_parse`. -/
def clean_dates (data : List PyVal) : List Record :=
  (data.map wrapRow).map (fun r =>
    let r1 := rset r "report_date_parsed" (optToPy (isoParse (rgetPy r "report_date")))
    rset r1 "offense_date_parsed" (optToPy (isoParse (rgetPy r1 "offense_date"))))

/-- The fixed keyword table of `categorize_incidents`
(transform_server.py lines 64-81), in its Python insertion order. -/
def rules : List (String × List String) :=
  [("THEFT/PROPERTY",
    ["theft", "stolen", "burglary", "robbery", "larceny", "shoplift", "retail",
     "vehicle", "auto", "tag", "property", "fraud", "lost property"]),
   ("ASSAULT/VIOLENCE",
    ["assault", "battery", "domestic", "violence", "fight", "threat", "sexual", "kidnap"]),
   ("DRUG/ALCOHOL",
    ["drug", "narcotic", "cocaine", "heroin", "meth", "marijuana", "alcohol", "dui", "intox"]),
   ("TRAFFIC",
    ["traffic", "crash", "accident", "hit and run", "reckless", "speed", "road", "parking"]),
   ("BURGLARY",
    ["burglary", "break", "breaking", "trespass", "prowler"])]

/-- Python substring test `needle in hay` on character lists. -/
def isSubChars (needle : List Char) : List Char → Bool
  | [] => needle.isEmpty
  | c :: rest => needle.isPrefixOf (c :: rest) || isSubChars needle rest

/-- Python `kw in text` for strings. -/
def pySubstr (needle hay : String) : Bool := isSubChars needle.data hay.data

/-- `allowed` (transform_server.py line 83): the uppercased caller
categories, or — when the caller list is empty (falsy) — the rule names
plus `"OTHER"`. Membership is what matters; the model keeps a list. -/
def allowedSet (categories : List String) : List String :=
  if categories.isEmpty then rules.map Prod.fst ++ ["OTHER"] else categories.map pyUpper

/-- The loop of transform_server.py lines 88-92: the first rule (in the
fixed `rules` order) that is allowed and has a keyword occurring in the
text wins; otherwise `"OTHER"`. -/
def chooseCatAux (allowed : List String) (text : String) : List (String × List String) → String
  | [] => "OTHER"
  | (cat, kws) :: rest =>
      if allowed.contains cat && kws.any (fun kw => pySubstr kw text) then cat
      else chooseCatAux allowed text rest

/-- `chosen` for one record's search text. -/
def chooseCat (allowed : List String) (text : String) : String :=
  chooseCatAux allowed text rules

/-- `(r.get("narrative") or r.get("incident_type") or "").lower()`
(transform_server.py line 86): the first truthy of the two fields, else
`""`; `none` models the `AttributeError` raised when that value is a
truthy non-string (no `.lower()` method). -/
def rowText (r : Record) : Option String :=
  let v :=
    if pyTruthy (rgetPy r "narrative") then rgetPy r "narrative"
    else if pyTruthy (rgetPy r "incident_type") then rgetPy r "incident_type"
    else .strV ""
  match v with
  | .strV s => some (pyLower s)
  | _ => none

/-- `categorize_incidents(data, categories)` (transform_server.py lines
55-96): each row gets `category := chosen.lower()`; `none` models the
exception escaping when a row's text extraction fails. -/
def categorize_incidents (data : List PyVal) (categories : List String) : Option (List Record) :=
  (data.map wrapRow).mapM (fun r =>
    (rowText r).map (fun text =>
      rset r "category" (.strV (pyLower (chooseCat (allowedSet categories) text)))))

/-- `x is None` for the modelled values. -/
def isNoneV : PyVal → Bool
  | .noneV => true
  | _ => false

/-- `bad_coord(r)` (transform_server.py lines 110-118), with the exact
control flow: `float()` is applied to each present (non-`None`)
coordinate — a coercion failure is caught and counts as bad; if either
coordinate is absent (its `r.get` is `None`) the record is not bad;
only when both parsed does the latitude/longitude range check run. -/
def bad_coord (r : Record) : Bool :=
  let latv := rgetPy r "latitude"
  let lonv := rgetPy r "longitude"
  if isNoneV latv then
    (if isNoneV lonv then false else (pyFloat lonv).isNone)
  else
    match pyFloat latv with
    | none => true
    | some lat =>
        if isNoneV lonv then false
        else
          match pyFloat lonv with
          | none => true
          | some lon =>
              !(decide ((-90 : ℚ) ≤ lat) && decide (lat ≤ (90 : ℚ)) &&
                decide ((-180 : ℚ) ≤ lon) && decide (lon ≤ (180 : ℚ)))

/-- `missing_dates` membership predicate (transform_server.py line 108):
`not r.get("report_date") or not r.get("offense_date")` — a record is
listed when EITHER date field is absent or falsy. -/
def missingDates (r : Record) : Bool :=
  !pyTruthy (rgetPy r "report_date") || !pyTruthy (rgetPy r "offense_date")

/-- `missing_type_or_narrative` membership predicate
(transform_server.py line 107). -/
def missingType (r : Record) : Bool :=
  !(pyTruthy (rgetPy r "narrative") || pyTruthy (rgetPy r "incident_type"))

/-- The report of `detect_anomalies` (transform_server.py lines 122-127):
counts and three-record samples per defect class. -/
structure AnomalyReport where
  total_rows : Nat
  missing_type_count : Nat
  missing_type_sample : List Record
  missing_dates_count : Nat
  missing_dates_sample : List Record
  bad_coordinates_count : Nat
  bad_coordinates_sample : List Record
deriving Repr

/-- `detect_anomalies(data)` (transform_server.py lines 100-128). -/
def detect_anomalies (data : List PyVal) : AnomalyReport :=
  let rows := data.map wrapRow
  let mt := rows.filter missingType
  let md := rows.filter missingDates
  let bc := rows.filter bad_coord
  { total_rows := rows.length
    missing_type_count := mt.length
    missing_type_sample := mt.take 3
    missing_dates_count := md.length
    missing_dates_sample := md.take 3
    bad_coordinates_count := bc.length
    bad_coordinates_sample := bc.take 3 }

/-! ### servers/load_server.py — Persistence Gateway (lines 63-193)

The SQLite engine itself is an external collaborator (spec section 1
treats it as `persist(table, rows) → replace semantics` and
`execute(SQL) → rows`); the store is modelled as a name-indexed map of
tables holding the saved row lists, with `created` tracking whether the
database file exists (`_connect` creates it on first use, which happens
only after the table-name validation passed). `COUNT(*)` over a saved
table is the length of its row list. The `top_values`/`date_ranges`
sections of `generate_summary` are GROUP-BY/MIN/MAX computations of the
external SQL engine and are not part of the modelled report; no claim
touches them. -/

/-- The SQLite database: file-existence flag plus the named tables. -/
structure DB where
  created : Bool
  tables : List (String × List Record)
deriving Repr

/-- The state before any save: no `data/incidents.db` file. -/
def emptyDB : DB := ⟨false, []⟩

/-- Table lookup by name. -/
def tlookup (ts : List (String × List Record)) (t : String) : Option (List Record) :=
  match ts with
  | [] => none
  | (t0, rows) :: rest => if t0 = t then some rows else tlookup rest t

/-- `df.to_sql(table, conn, if_exists="replace")`: the named table's
whole contents are replaced (load_server.py line 80). -/
def tset (ts : List (String × List Record)) (t : String) (rows : List Record) :
    List (String × List Record) :=
  match ts with
  | [] => [(t, rows)]
  | (t0, rows0) :: rest =>
      if t0 = t then (t0, rows) :: rest else (t0, rows0) :: tset rest t rows

/-- The table-name guard of load_server.py line 69:
`not table_name or not table_name.replace("_", "").isalnum()` raises.
`replace("_", "")` with an empty replacement deletes every underscore
(a character filter); Python `str.isalnum` is true for a non-empty
all-alphanumeric string (ASCII model for the identifier alphabet). -/
def validTableName (t : String) : Bool :=
  !(t == "") &&
    (let u := t.data.filter (fun c => !(c == '_'))
     !u.isEmpty && u.all Char.isAlphanum)

/-- Minimal JSON string escaping of `json.dumps` (quote and backslash). -/
def jsonEscape (s : String) : String :=
  String.mk (s.data.foldr
    (fun c acc =>
      (if c = '"' then ['\\', '"'] else if c = '\\' then ['\\', '\\'] else [c]) ++ acc) [])

mutual

/-- `json.dumps(x, ensure_ascii=False)` on the modelled values
(default separators), used by `_stringify_complex_columns` to flatten
nested values before the relational write. -/
def jsonDumps : PyVal → String
  | .noneV => "null"
  | .boolV b => if b then "true" else "false"
  | .intV n => toString n
  | .strV s => "\"" ++ jsonEscape s ++ "\""
  | .listV l =>
      "[" ++ String.intercalate ", " (jsonDumpsList l) ++ "]"
  | .dictV kvs =>
      "\x7b" ++ String.intercalate ", " (jsonDumpsKVs kvs) ++ "\x7d"

/-- The serialized elements of a JSON array. -/
def jsonDumpsList : List PyVal → List String
  | [] => []
  | v :: rest => jsonDumps v :: jsonDumpsList rest

/-- The serialized `"key": value` entries of a JSON object. -/
def jsonDumpsKVs : List (String × PyVal) → List String
  | [] => []
  | (k, v) :: rest => ("\"" ++ jsonEscape k ++ "\": " ++ jsonDumps v) :: jsonDumpsKVs rest

end

/-- Whether a cell value is a dict or a list
(`isinstance(v, (dict, list))`). -/
def isComplexV : PyVal → Bool
  | .listV _ => true
  | .dictV _ => true
  | _ => false

/-- `pd.DataFrame(rows)` column order: union of row keys in order of
first appearance. -/
def dfColumns (rows : List Record) : List String :=
  rows.foldl (fun cols r =>
    r.foldl (fun cols kv => if cols.contains kv.1 then cols else cols ++ [kv.1]) cols) []

/-- The values of one column over the rows (`df[col]`); a key missing
from a row is a NaN cell, modelled as `noneV`. -/
def colValues (rows : List Record) (c : String) : List PyVal :=
  rows.map (fun r => rgetPy r c)

/-- The `has_complex` probe of `_stringify_complex_columns`
(load_server.py lines 50-54): only the column's first 50 cells are
inspected. -/
def colHasComplex (rows : List Record) (c : String) : Bool :=
  ((colValues rows c).take 50).any isComplexV

/-- `_stringify_complex_columns(df)` (load_server.py lines 44-60):
in each column flagged by the 50-cell probe, dict/list cells become
their `json.dumps` text. -/
def stringifyDF (rows : List Record) : List Record :=
  rows.map (fun r =>
    r.map (fun kv =>
      (kv.1, if colHasComplex rows kv.1 && isComplexV kv.2 then .strV (jsonDumps kv.2) else kv.2)))

/-- `str(DB_PATH)` (placeholder text; the absolute path depends on the
checkout location and no claim inspects it). -/
def dbPathStr : String := "data/incidents.db"

/-- `save_to_sqlite(data, table_name)` (load_server.py lines 63-98):
the table-name guard raises before the database is touched, so an
invalid name yields the `ok: false` envelope and an unchanged store;
otherwise the parsed rows are stringified and written with replace
semantics, and the `ok: true` envelope reports `rows_saved = len(df)`
and the frame's columns. -/
def save_to_sqlite (db : DB) (data : List PyVal) (table_name : String) : PyVal × DB :=
  if validTableName table_name then
    let rows := data.map wrapRow
    let df := stringifyDF rows
    (.dictV
      [("ok", .boolV true), ("db_path", .strV dbPathStr), ("table", .strV table_name),
       ("rows_saved", .intV (df.length : Int)),
       ("columns", .listV ((dfColumns rows).map .strV))],
     ⟨true, tset db.tables table_name df⟩)
  else
    (.dictV
      [("ok", .boolV false),
       ("error", .strV "ValueError: table_name must be alphanumeric/underscore only"),
       ("db_path", .strV dbPathStr)],
     db)

/-- `generate_summary(table_name)` (load_server.py lines 127-193),
restricted to its structural skeleton: the missing-database and
missing-table error envelopes, and `row_count` from
`SELECT COUNT(*) FROM table` — the length of the saved row list. -/
def generate_summary (db : DB) (table_name : String) : PyVal :=
  if !db.created then
    .dictV [("ok", .boolV false), ("error", .strV "Database not found. Run save_to_sqlite first.")]
  else
    match tlookup db.tables table_name with
    | some rows =>
        .dictV
          [("ok", .boolV true), ("db_path", .strV dbPathStr), ("table", .strV table_name),
           ("row_count", .intV (rows.length : Int))]
    | none =>
        .dictV
          [("ok", .boolV false),
           ("error", .strV ("OperationalError: no such table: " ++ table_name))]

/-! ### pipeline.py — orchestrator tail after the save (lines 276-306)

`call_tool` (pipeline.py lines 113-120) returns
`try_parse_json(result.content[0].text)`; `save_to_sqlite` always
returns `json.dumps` of a dict, and `json.loads(json.dumps(d)) = d`,
so the orchestrator sees the structured dict itself — the embedding
therefore hands the save envelope `PyVal` straight to the guard. -/

/-- The fail-fast guard of pipeline.py line 279:
`isinstance(save_msg, str) and save_msg.lower().startswith("error")`. -/
def saveGuardFires (save_msg : PyVal) : Bool :=
  match save_msg with
  | .strV s => (pyLower s).startsWith "error"
  | _ => false

/-- The stages the orchestrator executes after the save call
(pipeline.py lines 279-306): abort when the guard fires, else
summarize, query and print the report. -/
def post_save_stages (save_msg : PyVal) : List String :=
  if saveGuardFires save_msg then ["raise RuntimeError"]
  else ["generate_summary", "query_database", "print report"]

/-- Whether a value is a Python dict (`isinstance(x, dict)`). -/
def isDictV : PyVal → Bool
  | .dictV _ => true
  | _ => false

/-! ## Helper lemmas -/

/-- `sanitize_plan` in closed form: clamp of the coercible suggestion,
defaulted per field. -/
theorem sanitize_plan_def (plan : PyVal) :
    sanitize_plan plan =
      (max 100 (min ((limitSuggestion plan).getD DEFAULT_LIMIT) 2000),
       max 0 ((offsetSuggestion plan).getD DEFAULT_OFFSET)) := by
  cases plan with
  | dictV kvs =>
      simp only [sanitize_plan, limitSuggestion, offsetSuggestion]
      rcases h1 : alookup kvs "fetch_limit" with _ | v1 <;>
          rcases h2 : alookup kvs "fetch_offset" with _ | v2 <;>
          simp only [h1, h2, Option.bind_eq_bind, Option.none_bind, Option.some_bind]
      · rfl
      · rcases h4 : pyInt v2 with _ | n2 <;> simp only [h4] <;> rfl
      · rcases h3 : pyInt v1 with _ | n1 <;> simp only [h3] <;> rfl
      · rcases h3 : pyInt v1 with _ | n1 <;> rcases h4 : pyInt v2 with _ | n2 <;>
          simp only [h3, h4] <;> rfl
  | noneV => rfl
  | boolV b => rfl
  | intV n => rfl
  | strV s => rfl
  | listV l => rfl

/-- Replacing a table and reading it back yields the new contents. -/
theorem tlookup_tset_self (ts : List (String × List Record)) (t : String)
    (rows : List Record) : tlookup (tset ts t rows) t = some rows := by
  induction ts with
  | nil => simp [tset, tlookup]
  | cons hd tl ih =>
      obtain ⟨t0, rows0⟩ := hd
      by_cases h : t0 = t <;> simp [tset, tlookup, h, ih]

/-- The stringification pass does not change the number of rows. -/
theorem stringifyDF_length (rows : List Record) :
    (stringifyDF rows).length = rows.length := by
  simp [stringifyDF]

/-- A value with a parseable `float()` coercion is not `None`. -/
theorem isNoneV_false_of_pyFloat_some {v : PyVal} {q : ℚ} (h : pyFloat v = some q) :
    isNoneV v = false := by
  cases v <;> simp_all [pyFloat, isNoneV]

/-- A value known not to be `None` fails the `is None` test. -/
theorem isNoneV_eq_false_of_ne {v : PyVal} (h : v ≠ .noneV) : isNoneV v = false := by
  cases v
  case noneV => exact absurd rfl h
  all_goals rfl

/-! ## Claim theorems -/

/-- C1: whatever value the advisory planner produced (malformed JSON,
out-of-range numbers, missing keys, non-dict values, prose, `None`),
`sanitize_plan` returns a plan with `100 ≤ limit ≤ 2000` and
`offset ≥ 0`; and whenever a field's key is absent or its value is not
`int()`-coercible (equivalently, the plan is not a dict), that field
alone falls back to its default (`limit = 500`, `offset = 0`). -/
theorem sanitize_plan_always_valid (plan : PyVal) :
    100 ≤ (sanitize_plan plan).1 ∧ (sanitize_plan plan).1 ≤ 2000 ∧
      0 ≤ (sanitize_plan plan).2 ∧
      (limitSuggestion plan = none → (sanitize_plan plan).1 = 500) ∧
      (offsetSuggestion plan = none → (sanitize_plan plan).2 = 0) := by
  rw [sanitize_plan_def]
  refine ⟨le_max_left _ _, max_le (by norm_num) (min_le_right _ _), le_max_left _ _,
    fun h => ?_, fun h => ?_⟩
  · rw [h]; rfl
  · rw [h]; rfl

/-- C1 witness: a non-dict advisory output falls back to both defaults,
and the dict `{"fetch_limit": 999999, "fetch_offset": "abc"}` is
clamped to 2000 with the offset defaulted for its field alone. -/
theorem sanitize_plan_always_valid_witness :
    (sanitize_plan (.strV "use limit -3!")).1 = 500 ∧
      (sanitize_plan (.strV "use limit -3!")).2 = 0 ∧
      100 ≤ (sanitize_plan (.dictV [("fetch_limit", .intV 999999),
        ("fetch_offset", .strV "abc")])).1 ∧
      (sanitize_plan (.dictV [("fetch_limit", .intV 999999),
        ("fetch_offset", .strV "abc")])).1 ≤ 2000 ∧
      (sanitize_plan (.dictV [("fetch_limit", .intV 999999),
        ("fetch_offset", .strV "abc")])).2 = 0 :=
  ⟨(sanitize_plan_always_valid (.strV "use limit -3!")).2.2.2.1 rfl,
   (sanitize_plan_always_valid (.strV "use limit -3!")).2.2.2.2 rfl,
   (sanitize_plan_always_valid (.dictV [("fetch_limit", .intV 999999),
      ("fetch_offset", .strV "abc")])).1,
   (sanitize_plan_always_valid (.dictV [("fetch_limit", .intV 999999),
      ("fetch_offset", .strV "abc")])).2.1,
   (sanitize_plan_always_valid (.dictV [("fetch_limit", .intV 999999),
      ("fetch_offset", .strV "abc")])).2.2.2.2 rfl⟩

/-- C2: the fail-fast gate does not work. `save_to_sqlite` reports
failure as the JSON object `{"ok": false, "error": ...}` (here produced
by the invalid table name `"bad-name"`), which `call_tool` hands to the
orchestrator as a parsed dict; the guard at pipeline.py line 279 only
fires for a STRING starting with `"error"`, so it stays silent and the
run proceeds to `generate_summary`, `query_database` and the success
report — contradicting the code's own comment at line 278 and the
spec's fail-fast requirement. -/
theorem save_failure_not_fail_fast :
    dlookup (save_to_sqlite emptyDB [.dictV [("a", .intV 1)]] "bad-name").1 "ok"
        = some (.boolV false) ∧
      saveGuardFires (save_to_sqlite emptyDB [.dictV [("a", .intV 1)]] "bad-name").1 = false ∧
      post_save_stages (save_to_sqlite emptyDB [.dictV [("a", .intV 1)]] "bad-name").1
        = ["generate_summary", "query_database", "print report"] :=
  ⟨rfl, rfl, rfl⟩

/-- C5: for every `limit` outside `[1, 2000]` or `offset < 0`, both
`fetch_incidents` and `fetch_by_date_range` return the validation-error
envelope and never reach the request constructor; conversely a request
is issued only when all bounds checks pass. -/
theorem fetch_validates_bounds (limit offset : Int) (start_iso end_iso : String) :
    ((limit < 1 ∨ 2000 < limit ∨ offset < 0) →
      (fetch_incidents limit offset).isValidationError = true ∧
      (fetch_by_date_range start_iso end_iso limit offset).isValidationError = true) ∧
    ((fetch_incidents limit offset).isValidationError = false →
      1 ≤ limit ∧ limit ≤ 2000 ∧ 0 ≤ offset) := by
  constructor
  · intro h
    constructor <;>
      · simp only [fetch_incidents, fetch_by_date_range]
        split_ifs with h1 h2 h3 <;> first | rfl | (exfalso; omega)
  · intro h
    simp only [fetch_incidents] at h
    split_ifs at h with h1 h2 h3 <;> first | omega | simp [FetchResult.isValidationError] at h

/-- C5 witness: `limit = 2001` (and `limit = 0`, `offset = -1`) are
rejected before any request by both fetch tools. -/
theorem fetch_validates_bounds_witness :
    (fetch_incidents 2001 0).isValidationError = true ∧
      (fetch_by_date_range "2024-01-01" "2024-02-01" 2001 0).isValidationError = true ∧
      (fetch_incidents 0 0).isValidationError = true ∧
      (fetch_incidents 100 (-1)).isValidationError = true :=
  ⟨((fetch_validates_bounds 2001 0 "2024-01-01" "2024-02-01").1 (by omega)).1,
   ((fetch_validates_bounds 2001 0 "2024-01-01" "2024-02-01").1 (by omega)).2,
   ((fetch_validates_bounds 0 0 "" "").1 (by omega)).1,
   ((fetch_validates_bounds 100 (-1) "" "").1 (by omega)).1⟩

/-- C8 counterexample: the table name `"1abc"` BEGINS WITH A DIGIT yet
passes the guard `table_name.replace("_", "").isalnum()` — the save
succeeds (`ok: true`) and the store IS written, so "not starting with a
digit ... a table name beginning with a digit is rejected" is false. -/
theorem leading_digit_table_name_accepted :
    dlookup (save_to_sqlite emptyDB [.dictV [("a", .intV 1)]] "1abc").1 "ok"
        = some (.boolV true) ∧
      tlookup (save_to_sqlite emptyDB [.dictV [("a", .intV 1)]] "1abc").2.tables "1abc"
        = some [[("a", .intV 1)]] :=
  ⟨rfl, rfl⟩

/-- C8 (amended): the accepted pattern is "non-empty, only
letters/digits/underscores, with at least one non-underscore character"
— a leading digit is allowed. For every name failing THAT pattern
(e.g. one containing `-`, or empty, or all underscores), `save` returns
the `ok: false` envelope and leaves the store untouched. -/
theorem invalid_table_name_rejected_no_write (db : DB) (B : List PyVal) (t : String)
    (h : validTableName t = false) :
    dlookup (save_to_sqlite db B t).1 "ok" = some (.boolV false) ∧
      (save_to_sqlite db B t).2 = db := by
  simp [save_to_sqlite, h, dlookup, alookup]

/-- C8 witness: `"bad-name"` fails the pattern and is rejected with no
side effect on a fresh store. -/
theorem invalid_table_name_rejected_no_write_witness :
    validTableName "bad-name" = false ∧
      dlookup (save_to_sqlite emptyDB [.dictV []] "bad-name").1 "ok" = some (.boolV false) ∧
      (save_to_sqlite emptyDB [.dictV []] "bad-name").2 = emptyDB :=
  ⟨rfl, (invalid_table_name_rejected_no_write emptyDB [.dictV []] "bad-name" rfl).1,
   (invalid_table_name_rejected_no_write emptyDB [.dictV []] "bad-name" rfl).2⟩

/-- C9 counterexample: `ensure_list` ACCEPTS `[{}, 5]` although the
element at index 1 is not a mapping — it checks only `data[0]` — so
"fails ... whenever any element at any index is not a keyed mapping" is
false; the error message (see the amended theorem) also names no index. -/
theorem ensure_list_second_element_unchecked :
    ensure_list (.listV [.dictV [], .intV 5]) "fetch_incidents(sample)"
      = .ok [.dictV [], .intV 5] := rfl

/-- C9 (amended): on a decoded list, `ensure_list` succeeds iff the list
is empty or its FIRST element is a mapping; elements beyond index 0 are
never inspected, and the failure message names the first element's type
(with the calling context) but no index. A decoded non-list always
fails with the list-shape message. -/
theorem ensure_list_first_element_only (x : PyVal) (xs : List PyVal) (ctx : String) :
    (ensure_list (.listV (x :: xs)) ctx).isOk = isDictV x ∧
      ensure_list (.listV []) ctx = .ok [] ∧
      (isDictV x = false →
        ensure_list (.listV (x :: xs)) ctx
          = .error (ctx ++ ": Expected list of objects (dicts), got list of " ++ typeName x)) := by
  refine ⟨?_, rfl, ?_⟩
  · cases x <;> rfl
  · intro h
    cases x <;> first | rfl | simp [isDictV] at h

/-- C3: for every batch `B` and every table name accepted by the guard,
`save(B, t)` followed by `summarize(t)` reports a row count equal to
`B`'s length, and a second `save(B', t)` fully replaces the table —
the count after it equals `B'`'s length, with no accumulation. -/
theorem save_then_summarize_counts (db : DB) (B Bp : List PyVal) (t : String)
    (h : validTableName t = true) :
    dlookup (generate_summary (save_to_sqlite db B t).2 t) "row_count"
        = some (.intV (B.length : Int)) ∧
      dlookup (generate_summary (save_to_sqlite (save_to_sqlite db B t).2 Bp t).2 t) "row_count"
        = some (.intV (Bp.length : Int)) := by
  have hsum : ∀ (d : DB) (L : List PyVal),
      dlookup (generate_summary (save_to_sqlite d L t).2 t) "row_count"
        = some (.intV (L.length : Int)) := by
    intro d L
    have hsave : (save_to_sqlite d L t).2
        = ⟨true, tset d.tables t (stringifyDF (L.map wrapRow))⟩ := by
      simp [save_to_sqlite, h]
    rw [hsave]
    simp [generate_summary, tlookup_tset_self, dlookup, alookup,
      stringifyDF_length]
  exact ⟨hsum db B, hsum _ Bp⟩

/-- C3 witness: saving two rows to `incidents` summarizes to 2; saving
one different row to the same table replaces them and summarizes to 1. -/
theorem save_then_summarize_counts_witness :
    validTableName "incidents" = true ∧
      dlookup (generate_summary
          (save_to_sqlite emptyDB [.dictV [("a", .intV 1)], .intV 7] "incidents").2
          "incidents") "row_count" = some (.intV 2) ∧
      dlookup (generate_summary
          (save_to_sqlite
            (save_to_sqlite emptyDB [.dictV [("a", .intV 1)], .intV 7] "incidents").2
            [.dictV [("b", .intV 3)]] "incidents").2
          "incidents") "row_count" = some (.intV 1) :=
  ⟨rfl,
   (save_then_summarize_counts emptyDB [.dictV [("a", .intV 1)], .intV 7]
      [.dictV [("b", .intV 3)]] "incidents" rfl).1,
   (save_then_summarize_counts emptyDB [.dictV [("a", .intV 1)], .intV 7]
      [.dictV [("b", .intV 3)]] "incidents" rfl).2⟩

/-- C6 counterexample: on `{"report_date": "2024-01-01"}` the normalizer
stores `report_date_parsed = None` (the absent marker), NOT
`"2024-01-01T00:00:00"` — the format list has no date-only form. -/
theorem clean_dates_date_only_counterexample :
    (clean_dates [.dictV [("report_date", .strV "2024-01-01")]]).map
        (fun r => rgetPy r "report_date_parsed") = [.noneV] ∧
      ¬ (PyVal.noneV = .strV "2024-01-01T00:00:00") :=
  ⟨rfl, fun hcontra => nomatch hcontra⟩

/-- C6 (amended): the ordered format list is full timestamp with
fractional seconds, then timestamp without — NO date-only form — so a
bare date like `"2024-01-01"` (and any unparseable string such as
`"not-a-date"`) yields the absent marker `None` without raising, while
`"2024-01-01T00:00:00"` round-trips and a zero fractional part is
dropped by `isoformat()`. -/
theorem clean_dates_format_behavior :
    (clean_dates [.dictV [("report_date", .strV "2024-01-01")]]).map
        (fun r => rgetPy r "report_date_parsed") = [.noneV] ∧
      (clean_dates [.dictV [("report_date", .strV "not-a-date")]]).map
        (fun r => rgetPy r "report_date_parsed") = [.noneV] ∧
      (clean_dates [.dictV [("report_date", .strV "2024-01-01T00:00:00")]]).map
        (fun r => rgetPy r "report_date_parsed") = [.strV "2024-01-01T00:00:00"] ∧
      (clean_dates [.dictV [("offense_date", .strV "2026-02-16T23:15:00.000")]]).map
        (fun r => rgetPy r "offense_date_parsed") = [.strV "2026-02-16T23:15:00"] :=
  ⟨rfl, rfl, rfl, rfl⟩

/-- C7 counterexample: a record whose `report_date` is present (and
truthy) but whose `offense_date` is absent IS counted under
`missing_dates` — the predicate is a disjunction, not the claimed
"both fields absent" conjunction. -/
theorem missing_dates_one_present_counterexample :
    (detect_anomalies [.dictV [("report_date", .strV "2024-01-01")]]).missing_dates_count = 1 ∧
      pyTruthy (rgetPy [("report_date", .strV "2024-01-01")] "report_date") = true :=
  ⟨rfl, rfl⟩

/-- C7 (amended): the anomaly detector counts a record under the
missing-dates class iff AT LEAST ONE of `report_date`/`offense_date` is
absent or falsy; in particular a record with exactly one of the two
present is counted. -/
theorem missing_dates_either_field (r : Record) :
    (detect_anomalies [.dictV r]).missing_dates_count = 1 ↔
      (pyTruthy (rgetPy r "report_date") = false ∨
       pyTruthy (rgetPy r "offense_date") = false) := by
  simp only [detect_anomalies, wrapRow, List.map_cons, List.map_nil]
  rcases h1 : pyTruthy (rgetPy r "report_date") <;>
    rcases h2 : pyTruthy (rgetPy r "offense_date") <;>
      simp [missingDates, h1, h2, List.filter]

/-- C4 counterexample: with the caller-supplied categories
`["theft", "assault"]` and a record whose text contains both keywords,
the assigned category is `"other"`, not the claimed `"theft"`: the
categorizer matches against its fixed internal rules table (whose names
are `"THEFT/PROPERTY"`, `"ASSAULT/VIOLENCE"`, ...), and neither
uppercased caller string names a rule, so no rule is allowed. -/
theorem categorize_caller_list_counterexample :
    categorize_incidents [.dictV [("narrative", .strV "theft and assault")]]
        ["theft", "assault"]
      = some [[("narrative", .strV "theft and assault"), ("category", .strV "other")]] ∧
      ¬ ("other" = "theft") :=
  ⟨rfl, by decide⟩

/-- C4 (amended): the categorizer iterates its FIXED internal rules
table in declaration order (`THEFT/PROPERTY` before `ASSAULT/VIOLENCE`),
restricted to rules whose name equals an uppercased caller category, and
assigns the first rule with a keyword occurring in the record's
lowercased text; caller order and keyword frequency are irrelevant.
With categories naming the two rules — in either caller order — a text
containing keywords of both always gets `"theft/property"`; with the
claim's literal categories `["theft", "assault"]` (naming no rule) every
record gets `"other"`. -/
theorem categorize_fixed_rules_order (r : Record) (text : String)
    (ht : rowText r = some text)
    (h1 : pySubstr "theft" text = true)
    (h2 : pySubstr "assault" text = true) :
    categorize_incidents [.dictV r] ["THEFT/PROPERTY", "ASSAULT/VIOLENCE"]
        = some [rset r "category" (.strV "theft/property")] ∧
      categorize_incidents [.dictV r] ["ASSAULT/VIOLENCE", "THEFT/PROPERTY"]
        = some [rset r "category" (.strV "theft/property")] ∧
      categorize_incidents [.dictV r] ["theft", "assault"]
        = some [rset r "category" (.strV "other")] := by
  have key : ∀ allowed : List String, "THEFT/PROPERTY" ∈ allowed →
      chooseCat allowed text = "THEFT/PROPERTY" := by
    intro allowed hc
    simp [chooseCat, chooseCatAux, rules, hc, h1]
  have e1 : allowedSet ["THEFT/PROPERTY", "ASSAULT/VIOLENCE"]
      = ["THEFT/PROPERTY", "ASSAULT/VIOLENCE"] := rfl
  have e2 : allowedSet ["ASSAULT/VIOLENCE", "THEFT/PROPERTY"]
      = ["ASSAULT/VIOLENCE", "THEFT/PROPERTY"] := rfl
  have k1 : pyLower (chooseCat (allowedSet ["THEFT/PROPERTY", "ASSAULT/VIOLENCE"]) text)
      = "theft/property" := by
    rw [e1, key _ (by decide)]
    rfl
  have k2 : pyLower (chooseCat (allowedSet ["ASSAULT/VIOLENCE", "THEFT/PROPERTY"]) text)
      = "theft/property" := by
    rw [e2, key _ (by decide)]
    rfl
  have e3 : allowedSet ["theft", "assault"] = ["THEFT", "ASSAULT"] := rfl
  have k3 : pyLower (chooseCat (allowedSet ["theft", "assault"]) text) = "other" := by
    rw [e3]
    have c1 : ("THEFT/PROPERTY" ∈ (["THEFT", "ASSAULT"] : List String)) = False := by simp
    have c2 : ("ASSAULT/VIOLENCE" ∈ (["THEFT", "ASSAULT"] : List String)) = False := by simp
    have c3 : ("DRUG/ALCOHOL" ∈ (["THEFT", "ASSAULT"] : List String)) = False := by simp
    have c4 : ("TRAFFIC" ∈ (["THEFT", "ASSAULT"] : List String)) = False := by simp
    have c5 : ("BURGLARY" ∈ (["THEFT", "ASSAULT"] : List String)) = False := by simp
    simp only [chooseCat, chooseCatAux, rules, c1, c2, c3, c4, c5, false_and, if_false]
    rfl
  refine ⟨?_, ?_, ?_⟩ <;>
    simp [categorize_incidents, wrapRow, List.mapM, List.mapM.loop, ht, k1, k2, k3]

/-- C4 witness: a record whose text contains `assault` twice and `theft`
once still gets `theft/property`, even with `ASSAULT/VIOLENCE` listed
first by the caller. -/
theorem categorize_fixed_rules_order_witness :
    categorize_incidents [.dictV [("narrative", .strV "Assault assault THEFT")]]
        ["ASSAULT/VIOLENCE", "THEFT/PROPERTY"]
      = some [[("narrative", .strV "Assault assault THEFT"),
               ("category", .strV "theft/property")]] :=
  (categorize_fixed_rules_order [("narrative", .strV "Assault assault THEFT")]
    "assault assault theft" rfl rfl rfl).2.1

/-- C10: the coordinate check of the anomaly detector never
range-checks a lone coordinate — a record with exactly one of
latitude/longitude present whose value is `float()`-parseable is never
counted bad, however far out of range — while a present but
non-parseable coordinate value always makes the record bad. -/
theorem bad_coord_single_and_nonnumeric (r : Record) (q : ℚ) :
    (pyFloat (rgetPy r "latitude") = some q → rgetPy r "longitude" = .noneV →
        bad_coord r = false) ∧
      (pyFloat (rgetPy r "longitude") = some q → rgetPy r "latitude" = .noneV →
        bad_coord r = false) ∧
      (rgetPy r "latitude" ≠ .noneV → pyFloat (rgetPy r "latitude") = none →
        bad_coord r = true) ∧
      (rgetPy r "longitude" ≠ .noneV → pyFloat (rgetPy r "longitude") = none →
        bad_coord r = true) := by
  refine ⟨fun hq hlon => ?_, fun hq hlat => ?_, fun hne hnum => ?_, fun hne hnum => ?_⟩
  · have hlf := isNoneV_false_of_pyFloat_some hq
    simp [bad_coord, hlf, hq, hlon, isNoneV]
  · have hof := isNoneV_false_of_pyFloat_some hq
    simp [bad_coord, hlat, isNoneV, hof, hq]
  · have hlf := isNoneV_eq_false_of_ne hne
    simp [bad_coord, hlf, hnum]
  · have hof := isNoneV_eq_false_of_ne hne
    cases h3 : isNoneV (rgetPy r "latitude") <;>
      cases h4 : pyFloat (rgetPy r "latitude") <;>
        simp [bad_coord, h3, h4, hof, hnum]

/-- C10 witness: latitude 9999 alone (wildly out of range) is not bad;
latitude `"abc"` (present, non-numeric) is bad. -/
theorem bad_coord_single_and_nonnumeric_witness :
    bad_coord [("latitude", .intV 9999)] = false ∧
      bad_coord [("latitude", .strV "abc"), ("longitude", .intV 0)] = true :=
  ⟨(bad_coord_single_and_nonnumeric [("latitude", .intV 9999)] 9999).1 (by decide) rfl,
   (bad_coord_single_and_nonnumeric [("latitude", .strV "abc"), ("longitude", .intV 0)]
      0).2.2.1 (fun hcontra => nomatch hcontra) (by decide)⟩

end ETL



